import Mathlib

/-!
Shallow embedding of the asynchronous payment-dispatch core of
yurimachados/rinha-backend-go, together with theorems settling the spec
claims about it.

The embedded code lives in:
  - src/queue/processor.go  (ProcessorStatus, PaymentProcessor, ProcessPayment,
    sendToProcessor, markHealthy, markUnhealthy, GetSummary,
    checkProcessorHealth, pingProcessor)
  - src/queue/worker.go     (WorkerPool queue: Submit, Stop, channel receive)
  - src/types/payment.go    (PaymentRequest, PaymentSummary, ProcessorResult)

The Go code is concurrent but every routine modelled here is a sequential
read-modify-write of one shared record; the embedding is the sequential
(interleaving-free) semantics of one call at a time.  External effects
(JSON marshalling, HTTP requests, pings) are modelled by an explicit event
argument describing the outcome the environment produces for that call.
Go `int64` fields only ever increment by 1 from 0 in the runs modelled, so
they stay far below 2^63 and are embedded as unbounded `Int`; wrap-around
never matters here.
-/

namespace Rinha

/-- Mirrors `types.PaymentRequest` (src/types/payment.go).  Go field `Type`
is spelled `TypeStr` because `Type` is a Lean keyword. -/
structure PaymentRequest where
  Amount : Int
  Description : String
  TypeStr : String
deriving Repr, DecidableEq

/-- Mirrors `queue.ProcessorStatus` (src/queue/processor.go lines 16-21):
four int64 fields updated atomically.  `IsHealthy` holds 1 (healthy) or
0 (unhealthy/Open). -/
structure ProcessorStatus where
  IsHealthy : Int
  FailureCount : Int
  LastCheckTime : Int
  ResponseTimeMs : Int
deriving Repr, DecidableEq

/-- Error classification carried by a `ProcessorResult`.  In Go the field is
an `error` value; only its identity matters to the claims. -/
inductive ProcError where
  | jsonErr
  | reqErr
  | netErr
  | httpStatus (code : Int)
  | allUnavailable
deriving Repr, DecidableEq

/-- Mirrors `types.ProcessorResult` (src/types/payment.go lines 23-27). -/
structure ProcessorResult where
  Success : Bool
  ProcessorID : String
  Error : Option ProcError
deriving Repr, DecidableEq

/-- Mirrors `types.PaymentSummary` (src/types/payment.go lines 30-35). -/
structure PaymentSummary where
  TotalPayments : Int
  DefaultSuccess : Int
  FallbackSuccess : Int
  TotalErrors : Int
deriving Repr, DecidableEq

/-- Outcome the environment produces for one `sendToProcessor` call:
`payment.ToJSON()` fails, `http.NewRequestWithContext` fails,
`client.Do` fails (timeout / connection error), or an HTTP response with
the given status code arrives after `latencyMs` milliseconds. -/
inductive SendEvent where
  | jsonError
  | reqError
  | netError
  | httpResp (code : Int) (latencyMs : Int)
deriving Repr, DecidableEq

/-- Mirrors `queue.PaymentProcessor` (src/queue/processor.go lines 24-36):
the two URLs, per-processor status records, and the four atomic counters.
The `http.Client` carries no state relevant to the claims. -/
structure PaymentProcessor where
  defaultURL : String
  fallbackURL : String
  defaultStatus : ProcessorStatus
  fallbackStatus : ProcessorStatus
  totalPayments : Int
  defaultSuccess : Int
  fallbackSuccess : Int
  totalErrors : Int
deriving Repr, DecidableEq

/-- Mirrors `NewPaymentProcessor` (src/queue/processor.go lines 39-58):
both statuses start with `IsHealthy = 1` and all other int64 fields at the
Go zero value 0; all counters start at 0. -/
def NewPaymentProcessor (defaultURL fallbackURL : String) : PaymentProcessor :=
  { defaultURL := defaultURL
    fallbackURL := fallbackURL
    defaultStatus :=
      { IsHealthy := 1, FailureCount := 0, LastCheckTime := 0, ResponseTimeMs := 0 }
    fallbackStatus :=
      { IsHealthy := 1, FailureCount := 0, LastCheckTime := 0, ResponseTimeMs := 0 }
    totalPayments := 0
    defaultSuccess := 0
    fallbackSuccess := 0
    totalErrors := 0 }

/-- Mirrors `markHealthy` (src/queue/processor.go lines 155-159).
`now` is the value of `time.Now().Unix()` at the call. -/
def markHealthy (now : Int) (status : ProcessorStatus) : ProcessorStatus :=
  { status with IsHealthy := 1, FailureCount := 0, LastCheckTime := now }

/-- Mirrors `markUnhealthy` (src/queue/processor.go lines 162-168):
increment `FailureCount`; once the result reaches 3 set `IsHealthy := 0`. -/
def markUnhealthy (now : Int) (status : ProcessorStatus) : ProcessorStatus :=
  let failures := status.FailureCount + 1
  { status with
      FailureCount := failures
      IsHealthy := if failures ≥ 3 then 0 else status.IsHealthy
      LastCheckTime := now }

/-- Mirrors `sendToProcessor` (src/queue/processor.go lines 92-152) as a
function of the status record it mutates and the environment event:
  - marshalling or request-construction failure → `markUnhealthy`, failure;
  - `client.Do` error → `markUnhealthy`, failure;
  - HTTP response: store `ResponseTimeMs`; 2xx → `markHealthy`, success;
    429 or ≥ 500 → `markUnhealthy`, failure; any other status → status
    record untouched, failure. -/
def sendToProcessor (now : Int) (processorID : String) (ev : SendEvent)
    (status : ProcessorStatus) : ProcessorStatus × ProcessorResult :=
  match ev with
  | .jsonError =>
      (markUnhealthy now status,
       { Success := false, ProcessorID := processorID, Error := some .jsonErr })
  | .reqError =>
      (markUnhealthy now status,
       { Success := false, ProcessorID := processorID, Error := some .reqErr })
  | .netError =>
      (markUnhealthy now status,
       { Success := false, ProcessorID := processorID, Error := some .netErr })
  | .httpResp code latencyMs =>
      let status1 := { status with ResponseTimeMs := latencyMs }
      if 200 ≤ code ∧ code < 300 then
        (markHealthy now status1,
         { Success := true, ProcessorID := processorID, Error := none })
      else if code = 429 ∨ code ≥ 500 then
        (markUnhealthy now status1,
         { Success := false, ProcessorID := processorID,
           Error := some (.httpStatus code) })
      else
        (status1,
         { Success := false, ProcessorID := processorID,
           Error := some (.httpStatus code) })

/-- Result of one `ProcessPayment` call: the updated processor record, the
returned `ProcessorResult`, and — as ghost instrumentation absent from the
source — the ordered list of processor IDs `sendToProcessor` was invoked
with during the call. -/
structure StepOut where
  proc : PaymentProcessor
  result : ProcessorResult
  sends : List String
deriving Repr, DecidableEq

/-- Second half of `ProcessPayment` (src/queue/processor.go lines 73-88):
try the fallback processor if its status reads healthy, then fall through
to the all-processors-unavailable error. -/
def processFallback (now : Int) (evF : SendEvent) (p : PaymentProcessor) : StepOut :=
  if p.fallbackStatus.IsHealthy = 1 then
    let r := sendToProcessor now "fallback" evF p.fallbackStatus
    let p1 := { p with fallbackStatus := r.1 }
    if r.2.Success then
      { proc := { p1 with fallbackSuccess := p1.fallbackSuccess + 1 }
        result := r.2
        sends := ["fallback"] }
    else
      { proc := { p1 with totalErrors := p1.totalErrors + 1 }
        result := { Success := false, ProcessorID := "none", Error := some .allUnavailable }
        sends := ["fallback"] }
  else
    { proc := { p with totalErrors := p.totalErrors + 1 }
      result := { Success := false, ProcessorID := "none", Error := some .allUnavailable }
      sends := [] }

/-- Mirrors `ProcessPayment` (src/queue/processor.go lines 61-89):
increment `totalPayments`; try the default processor first when its status
reads healthy; on a successful default send increment `defaultSuccess` and
return, otherwise continue with `processFallback`.  `evD` / `evF` are the
environment events for the default / fallback send should it happen. -/
def ProcessPayment (now : Int) (evD evF : SendEvent) (p0 : PaymentProcessor) : StepOut :=
  let p := { p0 with totalPayments := p0.totalPayments + 1 }
  if p.defaultStatus.IsHealthy = 1 then
    let r := sendToProcessor now "default" evD p.defaultStatus
    let p1 := { p with defaultStatus := r.1 }
    if r.2.Success then
      { proc := { p1 with defaultSuccess := p1.defaultSuccess + 1 }
        result := r.2
        sends := ["default"] }
    else
      let out := processFallback now evF p1
      { out with sends := "default" :: out.sends }
  else
    processFallback now evF p

/-- Mirrors `GetSummary` (src/queue/processor.go lines 171-178). -/
def GetSummary (p : PaymentProcessor) : PaymentSummary :=
  { TotalPayments := p.totalPayments
    DefaultSuccess := p.defaultSuccess
    FallbackSuccess := p.fallbackSuccess
    TotalErrors := p.totalErrors }

/-- Outcome the environment produces for one `pingProcessor` call. -/
inductive PingEvent where
  | reqError
  | netError
  | httpResp (code : Int)
deriving Repr, DecidableEq

/-- Mirrors `pingProcessor` (src/queue/processor.go lines 225-241):
request-construction or network failure → false, otherwise true exactly
when the status code is 200. -/
def pingProcessor (ev : PingEvent) : Bool :=
  match ev with
  | .reqError => false
  | .netError => false
  | .httpResp code => code = 200

/-- Mirrors `checkProcessorHealth` (src/queue/processor.go lines 196-222),
one probe cycle: for each processor, only when its status reads unhealthy
issue a ping, and on ping success apply `markHealthy`; otherwise leave the
status untouched.  Returns the updated record and — ghost instrumentation —
the list of processor IDs actually pinged. -/
def checkProcessorHealth (now : Int) (evD evF : PingEvent) (p : PaymentProcessor) :
    PaymentProcessor × List String :=
  let dPart :
      ProcessorStatus × List String :=
    if p.defaultStatus.IsHealthy = 0 then
      (if pingProcessor evD then markHealthy now p.defaultStatus else p.defaultStatus,
       ["default"])
    else (p.defaultStatus, [])
  let fPart :
      ProcessorStatus × List String :=
    if p.fallbackStatus.IsHealthy = 0 then
      (if pingProcessor evF then markHealthy now p.fallbackStatus else p.fallbackStatus,
       ["fallback"])
    else (p.fallbackStatus, [])
  ({ p with defaultStatus := dPart.1, fallbackStatus := fPart.1 },
   dPart.2 ++ fPart.2)

/-! Queue model, from `queue.WorkerPool` (src/queue/worker.go): the work
queue is a Go buffered channel `make(chan *types.PaymentRequest, queueSize)`.
Its sequential semantics: a bounded FIFO buffer plus a closed flag. -/

/-- State of the `workQueue` channel of a `WorkerPool`
(src/queue/worker.go lines 13-39): fixed capacity, buffered items in FIFO
order, and whether `close` has been called. -/
structure WorkQueue where
  capacity : Nat
  items : List PaymentRequest
  closed : Bool
deriving Repr, DecidableEq

/-- Outcome of one `Submit` call.  `accepted` / `rejected` are the `true` /
`false` returns; `panicked` is a Go run-time panic (no value returned). -/
inductive SubmitOutcome where
  | accepted
  | rejected
  | panicked
deriving Repr, DecidableEq

/-- Mirrors `Submit` (src/queue/worker.go lines 57-64): a `select` with a
send on `workQueue` and a `default` branch.  Go semantics: a send on a
closed channel always proceeds — by panicking — so after `close` the send
case is taken and the call panics; on an open channel the send proceeds
iff buffer space remains, otherwise the `default` branch returns false. -/
def Submit (payment : PaymentRequest) (q : WorkQueue) : WorkQueue × SubmitOutcome :=
  if q.closed then
    (q, .panicked)
  else if q.items.length < q.capacity then
    ({ q with items := q.items ++ [payment] }, .accepted)
  else
    (q, .rejected)

/-- Mirrors the `close(wp.workQueue)` performed by `Stop`
(src/queue/worker.go lines 50-54); `cancel()` and `wg.Wait()` concern the
worker goroutines, not the channel state. -/
def Stop (q : WorkQueue) : WorkQueue :=
  { q with closed := true }

/-- One worker receive `payment, ok := <-wp.workQueue` on a closed channel
(src/queue/worker.go lines 82-87): buffered items are yielded in FIFO
order; an empty closed channel yields `ok = false` (here `none`). -/
def recv (q : WorkQueue) : WorkQueue × Option PaymentRequest :=
  match q.items with
  | [] => (q, none)
  | x :: xs => ({ q with items := xs }, some x)

/-- Repeated `recv` with fuel: the payments a draining worker obtains from
a closed queue before seeing `ok = false`. -/
def drainAux : Nat → WorkQueue → List PaymentRequest
  | 0, _ => []
  | n + 1, q =>
      match recv q with
      | (_, none) => []
      | (q1, some x) => x :: drainAux n q1

/-- Every item a closed queue still yields, in order. -/
def drain (q : WorkQueue) : List PaymentRequest :=
  drainAux q.items.length q

/-! Helper lemmas shared across the claim theorems. -/

theorem processFallback_sends (now : Int) (evF : SendEvent) (p : PaymentProcessor) :
    (processFallback now evF p).sends =
      if p.fallbackStatus.IsHealthy = 1 then ["fallback"] else [] := by
  by_cases h : p.fallbackStatus.IsHealthy = 1
  · simp only [processFallback, h, reduceIte]
    split <;> rfl
  · simp only [processFallback, h, reduceIte]

/-- Sequential run: fold `ProcessPayment` over a list of per-payment
environment events `(now, evD, evF)`. -/
def runPayments : List (Int × SendEvent × SendEvent) → PaymentProcessor → PaymentProcessor
  | [], p => p
  | (now, evD, evF) :: rest, p => runPayments rest (ProcessPayment now evD evF p).proc

theorem processFallback_defaultStatus (now : Int) (evF : SendEvent) (p : PaymentProcessor) :
    (processFallback now evF p).proc.defaultStatus = p.defaultStatus := by
  unfold processFallback
  split
  · dsimp only
    split <;> rfl
  · rfl

theorem processFallback_totalPayments (now : Int) (evF : SendEvent) (p : PaymentProcessor) :
    (processFallback now evF p).proc.totalPayments = p.totalPayments := by
  unfold processFallback
  split
  · dsimp only
    split <;> rfl
  · rfl

theorem processFallback_defaultSuccess (now : Int) (evF : SendEvent) (p : PaymentProcessor) :
    (processFallback now evF p).proc.defaultSuccess = p.defaultSuccess := by
  unfold processFallback
  split
  · dsimp only
    split <;> rfl
  · rfl

theorem processFallback_result_of_open (now : Int) (evF : SendEvent) (p : PaymentProcessor)
    (h : ¬ p.fallbackStatus.IsHealthy = 1) :
    processFallback now evF p =
      { proc := { p with totalErrors := p.totalErrors + 1 }
        result := { Success := false, ProcessorID := "none", Error := some .allUnavailable }
        sends := [] } := by
  unfold processFallback
  rw [if_neg h]

theorem processPayment_of_default_open (now : Int) (evD evF : SendEvent)
    (p : PaymentProcessor) (h : ¬ p.defaultStatus.IsHealthy = 1) :
    ProcessPayment now evD evF p =
      processFallback now evF { p with totalPayments := p.totalPayments + 1 } := by
  unfold ProcessPayment
  rw [if_neg h]

theorem processPayment_defaultStatus (now : Int) (evD evF : SendEvent)
    (p : PaymentProcessor) :
    (ProcessPayment now evD evF p).proc.defaultStatus =
      if p.defaultStatus.IsHealthy = 1 then
        (sendToProcessor now "default" evD p.defaultStatus).1
      else p.defaultStatus := by
  unfold ProcessPayment
  by_cases h : p.defaultStatus.IsHealthy = 1
  · simp only [h, if_true, reduceIte]
    split
    · rfl
    · rw [processFallback_defaultStatus]
  · simp only [h, if_false, reduceIte]
    rw [processFallback_defaultStatus]

theorem processPayment_sends (now : Int) (evD evF : SendEvent) (p : PaymentProcessor) :
    (ProcessPayment now evD evF p).sends =
      if p.defaultStatus.IsHealthy = 1 then
        (if (sendToProcessor now "default" evD p.defaultStatus).2.Success then ["default"]
         else "default" ::
           (if p.fallbackStatus.IsHealthy = 1 then ["fallback"] else []))
      else
        (if p.fallbackStatus.IsHealthy = 1 then ["fallback"] else []) := by
  unfold ProcessPayment
  by_cases h : p.defaultStatus.IsHealthy = 1
  · simp only [h, if_true, reduceIte]
    split
    · rfl
    · show ("default" :: (processFallback now evF _).sends) = _
      rw [processFallback_sends]
  · simp only [h, if_false, reduceIte]
    rw [processFallback_sends]

/-- C1: `ProcessPayment` tries processors in fixed priority order — the
trace of sends is always an ordered sublist of `["default", "fallback"]` —
skipping any processor whose breaker is Open (`IsHealthy = 0`); when both
breakers are Open no send at all is performed and the attempt is finalized
as a total failure: `totalErrors` is incremented and the returned result
has `Success = false`. -/
theorem processPayment_routing_c1 (now : Int) (evD evF : SendEvent)
    (p : PaymentProcessor) :
    (ProcessPayment now evD evF p).sends.Sublist ["default", "fallback"] ∧
    (p.defaultStatus.IsHealthy = 0 →
      "default" ∉ (ProcessPayment now evD evF p).sends) ∧
    (p.fallbackStatus.IsHealthy = 0 →
      "fallback" ∉ (ProcessPayment now evD evF p).sends) ∧
    (p.defaultStatus.IsHealthy = 0 → p.fallbackStatus.IsHealthy = 0 →
      (ProcessPayment now evD evF p).sends = [] ∧
      (ProcessPayment now evD evF p).result.Success = false ∧
      (ProcessPayment now evD evF p).proc.totalErrors = p.totalErrors + 1 ∧
      (ProcessPayment now evD evF p).proc.totalPayments = p.totalPayments + 1) := by
  refine ⟨?_, ?_, ?_, ?_⟩
  · rw [processPayment_sends]
    split
    · split
      · simp
      · split <;> simp
    · split <;> simp
  · intro h0
    have h1 : ¬ p.defaultStatus.IsHealthy = 1 := by rw [h0]; decide
    rw [processPayment_sends, if_neg h1]
    split <;> simp
  · intro h0
    have h1 : ¬ p.fallbackStatus.IsHealthy = 1 := by rw [h0]; decide
    rw [processPayment_sends, if_neg h1]
    split
    · split <;> decide
    · decide
  · intro hd0 hf0
    have hd1 : ¬ p.defaultStatus.IsHealthy = 1 := by rw [hd0]; decide
    have hf1 : ¬ ({ p with totalPayments := p.totalPayments + 1} :
        PaymentProcessor).fallbackStatus.IsHealthy = 1 := by
      show ¬ p.fallbackStatus.IsHealthy = 1
      rw [hf0]; decide
    rw [processPayment_of_default_open now evD evF p hd1,
        processFallback_result_of_open now evF _ hf1]
    exact ⟨rfl, rfl, rfl, rfl⟩

/-- Concrete processor record whose two breakers are Open. -/
def procBothOpen : PaymentProcessor :=
  { NewPaymentProcessor "d" "f" with
      defaultStatus :=
        { IsHealthy := 0, FailureCount := 3, LastCheckTime := 5, ResponseTimeMs := 7 }
      fallbackStatus :=
        { IsHealthy := 0, FailureCount := 4, LastCheckTime := 6, ResponseTimeMs := 8 } }

/-- Witness instantiating `processPayment_routing_c1` at a processor whose
two breakers are Open. -/
theorem processPayment_routing_c1_witness :
    procBothOpen.defaultStatus.IsHealthy = 0 ∧
    procBothOpen.fallbackStatus.IsHealthy = 0 ∧
    ((ProcessPayment 0 .netError .netError procBothOpen).sends = [] ∧
     (ProcessPayment 0 .netError .netError procBothOpen).result.Success = false ∧
     (ProcessPayment 0 .netError .netError procBothOpen).proc.totalErrors =
       procBothOpen.totalErrors + 1 ∧
     (ProcessPayment 0 .netError .netError procBothOpen).proc.totalPayments =
       procBothOpen.totalPayments + 1) :=
  ⟨by decide, by decide,
   (processPayment_routing_c1 0 .netError .netError procBothOpen).2.2.2
     (by decide) (by decide)⟩

/-- C2: if the default processor returns HTTP 500 for 3 consecutive
payments (whatever the fallback sends meanwhile do), its breaker opens —
`FailureCount` reaches the threshold 3 and `IsHealthy` becomes 0 — and the
4th payment is routed with no attempt against the default: directly to the
fallback when the fallback breaker is Closed. -/
theorem breaker_opens_after_three_500s_c2
    (d f : String) (n1 n2 n3 n4 l1 l2 l3 : Int) (evF1 evF2 evF3 evD4 evF4 : SendEvent)
    (p3 : PaymentProcessor)
    (hp3 : p3 = runPayments
      [(n1, SendEvent.httpResp 500 l1, evF1),
       (n2, SendEvent.httpResp 500 l2, evF2),
       (n3, SendEvent.httpResp 500 l3, evF3)] (NewPaymentProcessor d f)) :
    p3.defaultStatus.FailureCount = 3 ∧
    p3.defaultStatus.IsHealthy = 0 ∧
    "default" ∉ (ProcessPayment n4 evD4 evF4 p3).sends ∧
    (p3.fallbackStatus.IsHealthy = 1 →
      (ProcessPayment n4 evD4 evF4 p3).sends = ["fallback"]) := by
  subst hp3
  simp only [runPayments]
  have e1 : (ProcessPayment n1 (SendEvent.httpResp 500 l1) evF1
      (NewPaymentProcessor d f)).proc.defaultStatus =
      { IsHealthy := 1, FailureCount := 1, LastCheckTime := n1, ResponseTimeMs := l1 } := by
    rw [processPayment_defaultStatus]
    simp [NewPaymentProcessor, sendToProcessor, markUnhealthy]
  have e2 : (ProcessPayment n2 (SendEvent.httpResp 500 l2) evF2
      (ProcessPayment n1 (SendEvent.httpResp 500 l1) evF1
        (NewPaymentProcessor d f)).proc).proc.defaultStatus =
      { IsHealthy := 1, FailureCount := 2, LastCheckTime := n2, ResponseTimeMs := l2 } := by
    rw [processPayment_defaultStatus, e1]
    simp [sendToProcessor, markUnhealthy]
  have e3 : (ProcessPayment n3 (SendEvent.httpResp 500 l3) evF3
      (ProcessPayment n2 (SendEvent.httpResp 500 l2) evF2
        (ProcessPayment n1 (SendEvent.httpResp 500 l1) evF1
          (NewPaymentProcessor d f)).proc).proc).proc.defaultStatus =
      { IsHealthy := 0, FailureCount := 3, LastCheckTime := n3, ResponseTimeMs := l3 } := by
    rw [processPayment_defaultStatus, e2]
    simp [sendToProcessor, markUnhealthy]
  refine ⟨by rw [e3], by rw [e3], ?_, ?_⟩
  · rw [processPayment_sends, if_neg (by rw [e3]; simp)]
    split <;> decide
  · intro hf
    rw [processPayment_sends, if_neg (by rw [e3]; simp), if_pos hf]

/-- Concrete 3-payment run of C2: default answers 500 every time, fallback
answers 200. -/
def c2run : PaymentProcessor :=
  runPayments
    [(0, SendEvent.httpResp 500 0, SendEvent.httpResp 200 0),
     (0, SendEvent.httpResp 500 0, SendEvent.httpResp 200 0),
     (0, SendEvent.httpResp 500 0, SendEvent.httpResp 200 0)]
    (NewPaymentProcessor "d" "f")

/-- Witness instantiating `breaker_opens_after_three_500s_c2` on the
concrete run `c2run`. -/
theorem breaker_opens_after_three_500s_c2_witness :
    c2run.defaultStatus.FailureCount = 3 ∧
    c2run.defaultStatus.IsHealthy = 0 ∧
    "default" ∉ (ProcessPayment 0 SendEvent.netError (SendEvent.httpResp 200 0) c2run).sends ∧
    (ProcessPayment 0 SendEvent.netError (SendEvent.httpResp 200 0) c2run).sends =
      ["fallback"] := by
  have h := breaker_opens_after_three_500s_c2 "d" "f" 0 0 0 0 0 0 0
    (SendEvent.httpResp 200 0) (SendEvent.httpResp 200 0) (SendEvent.httpResp 200 0)
    SendEvent.netError (SendEvent.httpResp 200 0) c2run rfl
  exact ⟨h.1, h.2.1, h.2.2.1, h.2.2.2 (by decide)⟩

/-- C3 counterexample: with a fresh processor, a payment whose default send
yields HTTP 404 (a payment-level failure, not 429) is not terminal for the
payment — `ProcessPayment` goes on to attempt the fallback for the very
same payment, which here succeeds. -/
theorem payment_level_404_not_terminal_c3_counterexample :
    (ProcessPayment 0 (SendEvent.httpResp 404 1) (SendEvent.httpResp 200 1)
        (NewPaymentProcessor "d" "f")).sends = ["default", "fallback"] ∧
    (ProcessPayment 0 (SendEvent.httpResp 404 1) (SendEvent.httpResp 200 1)
        (NewPaymentProcessor "d" "f")).proc.fallbackSuccess = 1 :=
  ⟨rfl, rfl⟩

/-- C3 amended: a send yielding an HTTP 4xx other than 429 leaves the
processor's breaker state (`IsHealthy` and `FailureCount`) unchanged and
produces a failed result, but it is terminal only in the sense that this
processor is not retried: when it happens on the default processor the
payment still proceeds to a fallback attempt exactly when the fallback
breaker reads healthy. -/
theorem payment_level_4xx_breaker_untouched_c3 (now lat code : Int) (pid : String)
    (evF : SendEvent) (p : PaymentProcessor) (st : ProcessorStatus)
    (h4 : 400 ≤ code) (h5 : code < 500) (h429 : code ≠ 429) :
    ((sendToProcessor now pid (SendEvent.httpResp code lat) st).1.IsHealthy =
        st.IsHealthy ∧
     (sendToProcessor now pid (SendEvent.httpResp code lat) st).1.FailureCount =
        st.FailureCount ∧
     (sendToProcessor now pid (SendEvent.httpResp code lat) st).2.Success = false) ∧
    (p.defaultStatus.IsHealthy = 1 →
      (ProcessPayment now (SendEvent.httpResp code lat) evF p).sends =
        "default" :: (if p.fallbackStatus.IsHealthy = 1 then ["fallback"] else [])) := by
  have hA : ∀ (q : String) (s : ProcessorStatus),
      sendToProcessor now q (SendEvent.httpResp code lat) s =
        ({ s with ResponseTimeMs := lat },
         { Success := false, ProcessorID := q, Error := some (.httpStatus code) }) := by
    intro q s
    simp only [sendToProcessor]
    rw [if_neg (by omega), if_neg (by omega)]
  refine ⟨?_, ?_⟩
  · rw [hA pid st]
    exact ⟨rfl, rfl, rfl⟩
  · intro hd
    rw [processPayment_sends, if_pos hd, hA "default" p.defaultStatus]
    simp

/-- Witness instantiating `payment_level_4xx_breaker_untouched_c3` at
HTTP 404 on a fresh processor. -/
theorem payment_level_4xx_breaker_untouched_c3_witness :
    ((sendToProcessor 0 "default" (SendEvent.httpResp 404 1)
        (NewPaymentProcessor "d" "f").defaultStatus).1.IsHealthy =
      (NewPaymentProcessor "d" "f").defaultStatus.IsHealthy ∧
     (sendToProcessor 0 "default" (SendEvent.httpResp 404 1)
        (NewPaymentProcessor "d" "f").defaultStatus).1.FailureCount =
      (NewPaymentProcessor "d" "f").defaultStatus.FailureCount ∧
     (sendToProcessor 0 "default" (SendEvent.httpResp 404 1)
        (NewPaymentProcessor "d" "f").defaultStatus).2.Success = false) ∧
    (ProcessPayment 0 (SendEvent.httpResp 404 1) (SendEvent.httpResp 200 1)
        (NewPaymentProcessor "d" "f")).sends =
      "default" ::
        (if (NewPaymentProcessor "d" "f").fallbackStatus.IsHealthy = 1
         then ["fallback"] else []) := by
  have h := payment_level_4xx_breaker_untouched_c3 0 1 404 "default"
    (SendEvent.httpResp 200 1) (NewPaymentProcessor "d" "f")
    (NewPaymentProcessor "d" "f").defaultStatus
    (by decide) (by decide) (by decide)
  exact ⟨h.1, h.2 rfl⟩

theorem drainAux_eq (cap : Nat) (closedFlag : Bool) (items : List PaymentRequest) :
    drainAux items.length { capacity := cap, items := items, closed := closedFlag } =
      items := by
  induction items with
  | nil => rfl
  | cons x xs ih => simp [drainAux, recv, ih]

theorem drain_eq_items (q : WorkQueue) : drain q = q.items := by
  rcases q with ⟨cap, items, closedFlag⟩
  exact drainAux_eq cap closedFlag items

/-- C4: after `Stop` closes the work queue, every `Submit` call performs a
select send on a closed channel — in Go this panics rather than returning
false — while the items enqueued before the close are still yielded, in
order, to draining workers. -/
theorem submit_after_stop_panics_c4 (payment : PaymentRequest) (q : WorkQueue) :
    (Submit payment (Stop q)).2 = SubmitOutcome.panicked ∧
    drain (Stop q) = q.items := by
  constructor
  · simp [Submit, Stop]
  · rw [drain_eq_items]
    rfl

/-- Fold `Submit` over a list of payments, recording every outcome. -/
def submitAll (ps : List PaymentRequest) (q : WorkQueue) :
    WorkQueue × List SubmitOutcome :=
  match ps with
  | [] => (q, [])
  | payment :: rest =>
      let r := Submit payment q
      let rr := submitAll rest r.1
      (rr.1, r.2 :: rr.2)

theorem submitAll_count_rejected (ps : List PaymentRequest) (q : WorkQueue)
    (hopen : q.closed = false) :
    (submitAll ps q).2.count SubmitOutcome.rejected =
      ps.length - (q.capacity - q.items.length) := by
  induction ps generalizing q with
  | nil => simp [submitAll]
  | cons payment rest ih =>
    by_cases hlt : q.items.length < q.capacity
    · have hs : Submit payment q =
          ({ q with items := q.items ++ [payment] }, SubmitOutcome.accepted) := by
        simp [Submit, hopen, hlt]
      have ih2 := ih { q with items := q.items ++ [payment] } hopen
      simp only [submitAll, hs]
      simp only [List.count_cons, ih2, List.length_append, List.length_cons]
      simp
      omega
    · have hs : Submit payment q = (q, SubmitOutcome.rejected) := by
        simp [Submit, hopen, hlt]
      have ih2 := ih q hopen
      simp only [submitAll, hs]
      simp only [List.count_cons, ih2, List.length_cons]
      simp
      omega

theorem submitAll_count_accepted (ps : List PaymentRequest) (q : WorkQueue)
    (hopen : q.closed = false) :
    (submitAll ps q).2.count SubmitOutcome.accepted =
      min ps.length (q.capacity - q.items.length) := by
  induction ps generalizing q with
  | nil => simp [submitAll]
  | cons payment rest ih =>
    by_cases hlt : q.items.length < q.capacity
    · have hs : Submit payment q =
          ({ q with items := q.items ++ [payment] }, SubmitOutcome.accepted) := by
        simp [Submit, hopen, hlt]
      have ih2 := ih { q with items := q.items ++ [payment] } hopen
      simp only [submitAll, hs]
      simp only [List.count_cons, ih2, List.length_append, List.length_cons]
      simp
      omega
    · have hs : Submit payment q = (q, SubmitOutcome.rejected) := by
        simp [Submit, hopen, hlt]
      have ih2 := ih q hopen
      simp only [submitAll, hs]
      simp only [List.count_cons, ih2, List.length_cons]
      simp
      omega

/-- C5: on an open queue holding at most its capacity, `Submit` returns
false exactly when the queue is at capacity; submitting `Q + 1` payments
into an empty open queue of capacity `Q` — in any order, i.e. for every
list of `Q + 1` payments — yields exactly one rejection and `Q`
acceptances. -/
theorem queue_backpressure_c5 (Q : Nat) (payment : PaymentRequest)
    (q : WorkQueue) (ps : List PaymentRequest)
    (hopen : q.closed = false) (hlen : q.items.length ≤ q.capacity)
    (hn : ps.length = Q + 1) :
    ((Submit payment q).2 = SubmitOutcome.rejected ↔
      q.items.length = q.capacity) ∧
    (submitAll ps { capacity := Q, items := [], closed := false }).2.count
        SubmitOutcome.rejected = 1 ∧
    (submitAll ps { capacity := Q, items := [], closed := false }).2.count
        SubmitOutcome.accepted = Q := by
  refine ⟨?_, ?_, ?_⟩
  · by_cases hlt : q.items.length < q.capacity
    · have hs : Submit payment q =
          ({ q with items := q.items ++ [payment] }, SubmitOutcome.accepted) := by
        simp [Submit, hopen, hlt]
      rw [hs]
      simp
      omega
    · have hs : Submit payment q = (q, SubmitOutcome.rejected) := by
        simp [Submit, hopen, hlt]
      rw [hs]
      simp
      omega
  · rw [submitAll_count_rejected ps _ rfl]
    simp [hn]
  · rw [submitAll_count_accepted ps _ rfl]
    simp [hn]

/-- A concrete payment value. -/
def samplePayment : PaymentRequest :=
  { Amount := 10, Description := "", TypeStr := "credit" }

/-- Witness instantiating `queue_backpressure_c5` at capacity 2 with three
submissions against an empty open queue. -/
theorem queue_backpressure_c5_witness :
    ((Submit samplePayment
        { capacity := 2, items := [samplePayment, samplePayment], closed := false }).2 =
          SubmitOutcome.rejected ↔ (2 : Nat) = 2) ∧
    (submitAll [samplePayment, samplePayment, samplePayment]
        { capacity := 2, items := [], closed := false }).2.count
        SubmitOutcome.rejected = 1 ∧
    (submitAll [samplePayment, samplePayment, samplePayment]
        { capacity := 2, items := [], closed := false }).2.count
        SubmitOutcome.accepted = 2 :=
  queue_backpressure_c5 2 samplePayment
    { capacity := 2, items := [samplePayment, samplePayment], closed := false }
    [samplePayment, samplePayment, samplePayment]
    rfl (by decide) rfl

theorem processPayment_sends_head (now : Int) (evD evF : SendEvent)
    (p : PaymentProcessor) (h : p.defaultStatus.IsHealthy = 1) :
    (ProcessPayment now evD evF p).sends.head? = some "default" := by
  rw [processPayment_sends, if_pos h]
  split <;> rfl

theorem checkProcessorHealth_eq (now : Int) (evD evF : PingEvent) (p : PaymentProcessor) :
    checkProcessorHealth now evD evF p =
      ({ p with
          defaultStatus :=
            if p.defaultStatus.IsHealthy = 0 ∧ pingProcessor evD then
              markHealthy now p.defaultStatus
            else p.defaultStatus
          fallbackStatus :=
            if p.fallbackStatus.IsHealthy = 0 ∧ pingProcessor evF then
              markHealthy now p.fallbackStatus
            else p.fallbackStatus },
       (if p.defaultStatus.IsHealthy = 0 then ["default"] else []) ++
         (if p.fallbackStatus.IsHealthy = 0 then ["fallback"] else [])) := by
  unfold checkProcessorHealth
  by_cases hd : p.defaultStatus.IsHealthy = 0 <;>
    by_cases hf : p.fallbackStatus.IsHealthy = 0 <;>
      by_cases pd : pingProcessor evD = true <;>
        by_cases pf : pingProcessor evF = true <;>
          simp [hd, hf, pd, pf]

/-- C6: one `checkProcessorHealth` cycle pings exactly the processors whose
breaker is currently Open (the ghost trace equation); on ping success the
processor receives the same mark-healthy transition as a successful payment
send — `IsHealthy = 1` and `FailureCount = 0` — so the next payment
attempts the default processor first again; on ping failure the processor
record is left unchanged. -/
theorem health_probe_c6 (now : Int) (evD evF : PingEvent) (p : PaymentProcessor) :
    ((checkProcessorHealth now evD evF p).2 =
      (if p.defaultStatus.IsHealthy = 0 then ["default"] else []) ++
        (if p.fallbackStatus.IsHealthy = 0 then ["fallback"] else [])) ∧
    (p.defaultStatus.IsHealthy = 0 → pingProcessor evD = true →
      (checkProcessorHealth now evD evF p).1.defaultStatus =
        markHealthy now p.defaultStatus ∧
      (checkProcessorHealth now evD evF p).1.defaultStatus.IsHealthy = 1 ∧
      (checkProcessorHealth now evD evF p).1.defaultStatus.FailureCount = 0 ∧
      ∀ (n2 : Int) (evD2 evF2 : SendEvent),
        (ProcessPayment n2 evD2 evF2
          (checkProcessorHealth now evD evF p).1).sends.head? = some "default") ∧
    (p.defaultStatus.IsHealthy = 0 → pingProcessor evD = false →
      (checkProcessorHealth now evD evF p).1.defaultStatus = p.defaultStatus) ∧
    (p.fallbackStatus.IsHealthy = 0 → pingProcessor evF = true →
      (checkProcessorHealth now evD evF p).1.fallbackStatus =
        markHealthy now p.fallbackStatus) ∧
    (p.fallbackStatus.IsHealthy = 0 → pingProcessor evF = false →
      (checkProcessorHealth now evD evF p).1.fallbackStatus = p.fallbackStatus) := by
  rw [checkProcessorHealth_eq]
  refine ⟨rfl, ?_, ?_, ?_, ?_⟩
  · intro hd hping
    have hstat : (if p.defaultStatus.IsHealthy = 0 ∧ pingProcessor evD then
        markHealthy now p.defaultStatus else p.defaultStatus) =
          markHealthy now p.defaultStatus := by
      rw [if_pos ⟨hd, hping⟩]
    refine ⟨hstat, ?_, ?_, ?_⟩
    · show (if p.defaultStatus.IsHealthy = 0 ∧ pingProcessor evD then
        markHealthy now p.defaultStatus else p.defaultStatus).IsHealthy = 1
      rw [hstat]
      rfl
    · show (if p.defaultStatus.IsHealthy = 0 ∧ pingProcessor evD then
        markHealthy now p.defaultStatus else p.defaultStatus).FailureCount = 0
      rw [hstat]
      rfl
    · intro n2 evD2 evF2
      apply processPayment_sends_head
      show (if p.defaultStatus.IsHealthy = 0 ∧ pingProcessor evD then
        markHealthy now p.defaultStatus else p.defaultStatus).IsHealthy = 1
      rw [hstat]
      rfl
  · intro hd hping
    show (if p.defaultStatus.IsHealthy = 0 ∧ pingProcessor evD then
      markHealthy now p.defaultStatus else p.defaultStatus) = p.defaultStatus
    rw [if_neg]
    simp [hping]
  · intro hf hping
    show (if p.fallbackStatus.IsHealthy = 0 ∧ pingProcessor evF then
      markHealthy now p.fallbackStatus else p.fallbackStatus) =
        markHealthy now p.fallbackStatus
    rw [if_pos ⟨hf, hping⟩]
  · intro hf hping
    show (if p.fallbackStatus.IsHealthy = 0 ∧ pingProcessor evF then
      markHealthy now p.fallbackStatus else p.fallbackStatus) = p.fallbackStatus
    rw [if_neg]
    simp [hping]

/-- Witness instantiating `health_probe_c6` on a processor with both
breakers Open: the default ping answers 200 and closes the breaker, the
fallback ping answers 500 and leaves its record unchanged. -/
theorem health_probe_c6_witness :
    procBothOpen.defaultStatus.IsHealthy = 0 ∧
    pingProcessor (PingEvent.httpResp 200) = true ∧
    procBothOpen.fallbackStatus.IsHealthy = 0 ∧
    pingProcessor (PingEvent.httpResp 500) = false ∧
    (checkProcessorHealth 9 (PingEvent.httpResp 200) (PingEvent.httpResp 500)
        procBothOpen).1.defaultStatus.IsHealthy = 1 ∧
    (checkProcessorHealth 9 (PingEvent.httpResp 200) (PingEvent.httpResp 500)
        procBothOpen).1.defaultStatus.FailureCount = 0 ∧
    (ProcessPayment 0 SendEvent.netError SendEvent.netError
        (checkProcessorHealth 9 (PingEvent.httpResp 200) (PingEvent.httpResp 500)
          procBothOpen).1).sends.head? = some "default" ∧
    (checkProcessorHealth 9 (PingEvent.httpResp 200) (PingEvent.httpResp 500)
        procBothOpen).1.fallbackStatus = procBothOpen.fallbackStatus := by
  have h := health_probe_c6 9 (PingEvent.httpResp 200) (PingEvent.httpResp 500)
    procBothOpen
  have hd := h.2.1 (by decide) (by decide)
  exact ⟨by decide, by decide, by decide, by decide, hd.2.1, hd.2.2.1,
    hd.2.2.2 0 SendEvent.netError SendEvent.netError,
    h.2.2.2.2 (by decide) (by decide)⟩

/-- Breaker transitions on one `ProcessorStatus`: the only writers of the
health fields are `markHealthy` (successful send or successful probe) and
`markUnhealthy` (processor-level failure), each at some timestamp. -/
inductive BreakerOp where
  | healthy (now : Int)
  | unhealthy (now : Int)
deriving Repr, DecidableEq

def applyOp (st : ProcessorStatus) : BreakerOp → ProcessorStatus
  | .healthy now => markHealthy now st
  | .unhealthy now => markUnhealthy now st

def applyOps (st : ProcessorStatus) (ops : List BreakerOp) : ProcessorStatus :=
  ops.foldl applyOp st

/-- Failure-count bookkeeping on the operation sequence alone: reset on a
mark-healthy, increment on a mark-unhealthy. -/
def stepFailures (acc : Int) (op : BreakerOp) : Int :=
  match op with
  | .healthy _ => 0
  | .unhealthy _ => acc + 1

/-- Consecutive failures accumulated since the last mark-healthy transition
(or since the start when none occurred). -/
def failuresSinceLastHealthy (ops : List BreakerOp) : Int :=
  ops.foldl stepFailures 0

theorem applyOps_inv (ops : List BreakerOp) (st : ProcessorStatus)
    (h : st.IsHealthy = 0 ↔ 3 ≤ st.FailureCount) :
    (applyOps st ops).IsHealthy = 0 ↔ 3 ≤ (applyOps st ops).FailureCount := by
  induction ops generalizing st with
  | nil => exact h
  | cons op rest ih =>
    cases op with
    | healthy now =>
      refine ih (markHealthy now st) ?_
      simp [markHealthy]
    | unhealthy now =>
      refine ih (markUnhealthy now st) ?_
      simp only [markUnhealthy]
      split <;> omega

theorem applyOps_failureCount (ops : List BreakerOp) (st : ProcessorStatus) :
    (applyOps st ops).FailureCount = ops.foldl stepFailures st.FailureCount := by
  induction ops generalizing st with
  | nil => rfl
  | cons op rest ih =>
    cases op with
    | healthy now =>
      show (applyOps (markHealthy now st) rest).FailureCount = _
      rw [ih]
      rfl
    | unhealthy now =>
      show (applyOps (markUnhealthy now st) rest).FailureCount = _
      rw [ih]
      rfl

/-- C7: starting from the initial status of `NewPaymentProcessor` (healthy,
zero failures), every sequence of mark-healthy / mark-unhealthy transitions
preserves the breaker invariant: `IsHealthy = 0` holds iff the failures
accumulated with no intervening mark-healthy reached the threshold 3 —
equivalently, the current `FailureCount` equals the number of
mark-unhealthy transitions since the last mark-healthy, and the flag reads
0 exactly when that count is at least 3; in particular `IsHealthy = 0`
implies `FailureCount ≥ 3`. -/
theorem breaker_invariant_c7 (d f : String) (ops : List BreakerOp) :
    ((applyOps (NewPaymentProcessor d f).defaultStatus ops).IsHealthy = 0 ↔
      3 ≤ (applyOps (NewPaymentProcessor d f).defaultStatus ops).FailureCount) ∧
    (applyOps (NewPaymentProcessor d f).defaultStatus ops).FailureCount =
      failuresSinceLastHealthy ops ∧
    ((applyOps (NewPaymentProcessor d f).defaultStatus ops).IsHealthy = 0 →
      3 ≤ (applyOps (NewPaymentProcessor d f).defaultStatus ops).FailureCount) := by
  have hinv := applyOps_inv ops (NewPaymentProcessor d f).defaultStatus (by simp [NewPaymentProcessor])
  refine ⟨hinv, ?_, hinv.mp⟩
  rw [applyOps_failureCount]
  rfl

/-- Witness instantiating `breaker_invariant_c7` on a sequence of three
mark-unhealthy transitions. -/
theorem breaker_invariant_c7_witness :
    ((applyOps (NewPaymentProcessor "d" "f").defaultStatus
        [BreakerOp.unhealthy 1, BreakerOp.unhealthy 2, BreakerOp.unhealthy 3]).IsHealthy
          = 0 ↔
      3 ≤ (applyOps (NewPaymentProcessor "d" "f").defaultStatus
        [BreakerOp.unhealthy 1, BreakerOp.unhealthy 2,
          BreakerOp.unhealthy 3]).FailureCount) ∧
    (applyOps (NewPaymentProcessor "d" "f").defaultStatus
        [BreakerOp.unhealthy 1, BreakerOp.unhealthy 2,
          BreakerOp.unhealthy 3]).FailureCount =
      failuresSinceLastHealthy
        [BreakerOp.unhealthy 1, BreakerOp.unhealthy 2, BreakerOp.unhealthy 3] ∧
    3 ≤ (applyOps (NewPaymentProcessor "d" "f").defaultStatus
        [BreakerOp.unhealthy 1, BreakerOp.unhealthy 2,
          BreakerOp.unhealthy 3]).FailureCount := by
  have h := breaker_invariant_c7 "d" "f"
    [BreakerOp.unhealthy 1, BreakerOp.unhealthy 2, BreakerOp.unhealthy 3]
  exact ⟨h.1, h.2.1, h.2.2 (by decide)⟩

/-- One C8 payment step: the default processor answers HTTP 500 whenever it
is sent to, the fallback answers HTTP 200. -/
def stepAllFail (p : PaymentProcessor) : StepOut :=
  ProcessPayment 0 (SendEvent.httpResp 500 0) (SendEvent.httpResp 200 0) p

/-- N sequential C8 payments; the second component counts — over the ghost
traces — how many sends actually went to the default processor. -/
def runAllFail : Nat → PaymentProcessor → PaymentProcessor × Nat
  | 0, p => (p, 0)
  | n + 1, p =>
      let out := stepAllFail p
      let r := runAllFail n out.proc
      (r.1, out.sends.count "default" + r.2)

theorem stepAllFail_steady (p : PaymentProcessor)
    (hd : p.defaultStatus.IsHealthy = 0) (hf : p.fallbackStatus.IsHealthy = 1) :
    stepAllFail p =
      { proc := { p with
          fallbackStatus :=
            { IsHealthy := 1, FailureCount := 0, LastCheckTime := 0, ResponseTimeMs := 0 }
          totalPayments := p.totalPayments + 1
          fallbackSuccess := p.fallbackSuccess + 1 }
        result := { Success := true, ProcessorID := "fallback", Error := none }
        sends := ["fallback"] } := by
  unfold stepAllFail
  rw [processPayment_of_default_open _ _ _ _ (by omega)]
  unfold processFallback
  rw [if_pos hf]
  simp [sendToProcessor, markHealthy]

theorem runAllFail_steady (m : Nat) (p : PaymentProcessor)
    (hd : p.defaultStatus.IsHealthy = 0)
    (hf : p.fallbackStatus =
      { IsHealthy := 1, FailureCount := 0, LastCheckTime := 0, ResponseTimeMs := 0 }) :
    runAllFail m p =
      ({ p with totalPayments := p.totalPayments + m,
                fallbackSuccess := p.fallbackSuccess + m }, 0) := by
  induction m generalizing p with
  | zero =>
    simp
    rfl
  | succ k ih =>
    have hf1 : p.fallbackStatus.IsHealthy = 1 := by rw [hf]
    simp only [runAllFail, stepAllFail_steady p hd hf1]
    rw [ih { p with
        fallbackStatus :=
          { IsHealthy := 1, FailureCount := 0, LastCheckTime := 0, ResponseTimeMs := 0 }
        totalPayments := p.totalPayments + 1
        fallbackSuccess := p.fallbackSuccess + 1 } hd rfl, ← hf]
    simp
    omega

/-- C8: with the default processor always answering 5xx and the fallback
always answering 2xx, after `n` sequential payments `defaultSuccess` is 0,
`fallbackSuccess` is `n`, no payment is a total error, and the number of
sends actually performed against the default processor is `min n 3` — in
particular at most the failure threshold 3, not `n`. -/
theorem default_attempts_bounded_c8 (d f : String) (n : Nat) :
    (runAllFail n (NewPaymentProcessor d f)).1.defaultSuccess = 0 ∧
    (runAllFail n (NewPaymentProcessor d f)).1.fallbackSuccess = n ∧
    (runAllFail n (NewPaymentProcessor d f)).1.totalErrors = 0 ∧
    (runAllFail n (NewPaymentProcessor d f)).2 = min n 3 := by
  have e1 : stepAllFail (NewPaymentProcessor d f) =
      { proc := { defaultURL := d, fallbackURL := f
                  defaultStatus :=
                    { IsHealthy := 1, FailureCount := 1, LastCheckTime := 0, ResponseTimeMs := 0 }
                  fallbackStatus :=
                    { IsHealthy := 1, FailureCount := 0, LastCheckTime := 0, ResponseTimeMs := 0 }
                  totalPayments := 1, defaultSuccess := 0, fallbackSuccess := 1, totalErrors := 0 }
        result := { Success := true, ProcessorID := "fallback", Error := none }
        sends := ["default", "fallback"] } := rfl
  have e2 : stepAllFail
      { defaultURL := d, fallbackURL := f
        defaultStatus :=
          { IsHealthy := 1, FailureCount := 1, LastCheckTime := 0, ResponseTimeMs := 0 }
        fallbackStatus :=
          { IsHealthy := 1, FailureCount := 0, LastCheckTime := 0, ResponseTimeMs := 0 }
        totalPayments := 1, defaultSuccess := 0, fallbackSuccess := 1, totalErrors := 0 } =
      { proc := { defaultURL := d, fallbackURL := f
                  defaultStatus :=
                    { IsHealthy := 1, FailureCount := 2, LastCheckTime := 0, ResponseTimeMs := 0 }
                  fallbackStatus :=
                    { IsHealthy := 1, FailureCount := 0, LastCheckTime := 0, ResponseTimeMs := 0 }
                  totalPayments := 2, defaultSuccess := 0, fallbackSuccess := 2, totalErrors := 0 }
        result := { Success := true, ProcessorID := "fallback", Error := none }
        sends := ["default", "fallback"] } := rfl
  have e3 : stepAllFail
      { defaultURL := d, fallbackURL := f
        defaultStatus :=
          { IsHealthy := 1, FailureCount := 2, LastCheckTime := 0, ResponseTimeMs := 0 }
        fallbackStatus :=
          { IsHealthy := 1, FailureCount := 0, LastCheckTime := 0, ResponseTimeMs := 0 }
        totalPayments := 2, defaultSuccess := 0, fallbackSuccess := 2, totalErrors := 0 } =
      { proc := { defaultURL := d, fallbackURL := f
                  defaultStatus :=
                    { IsHealthy := 0, FailureCount := 3, LastCheckTime := 0, ResponseTimeMs := 0 }
                  fallbackStatus :=
                    { IsHealthy := 1, FailureCount := 0, LastCheckTime := 0, ResponseTimeMs := 0 }
                  totalPayments := 3, defaultSuccess := 0, fallbackSuccess := 3, totalErrors := 0 }
        result := { Success := true, ProcessorID := "fallback", Error := none }
        sends := ["default", "fallback"] } := rfl
  match n with
  | 0 => exact ⟨rfl, rfl, rfl, rfl⟩
  | 1 => exact ⟨rfl, rfl, rfl, rfl⟩
  | 2 => exact ⟨rfl, rfl, rfl, rfl⟩
  | (m + 3) =>
    simp only [runAllFail, e1, e2, e3]
    rw [runAllFail_steady m _ rfl rfl]
    refine ⟨rfl, ?_, rfl, ?_⟩
    · show (3 : Int) + m = ((m + 3 : Nat) : Int)
      push_cast
      ring
    · show (["default", "fallback"].count "default" +
        (["default", "fallback"].count "default" +
          (["default", "fallback"].count "default" + 0))) = min (m + 3) 3
      have : ["default", "fallback"].count "default" = 1 := rfl
      rw [this]
      omega

theorem processFallback_totalPayments_eq (now : Int) (evF : SendEvent)
    (p : PaymentProcessor) :
    (processFallback now evF p).proc.totalPayments = p.totalPayments :=
  processFallback_totalPayments now evF p

theorem processFallback_counts (now : Int) (evF : SendEvent) (p : PaymentProcessor) :
    ((processFallback now evF p).proc.fallbackSuccess = p.fallbackSuccess + 1 ∧
     (processFallback now evF p).proc.totalErrors = p.totalErrors) ∨
    ((processFallback now evF p).proc.fallbackSuccess = p.fallbackSuccess ∧
     (processFallback now evF p).proc.totalErrors = p.totalErrors + 1) := by
  unfold processFallback
  split
  · dsimp only
    split
    · exact Or.inl ⟨rfl, rfl⟩
    · exact Or.inr ⟨rfl, rfl⟩
  · exact Or.inr ⟨rfl, rfl⟩

theorem processPayment_totalPayments (now : Int) (evD evF : SendEvent)
    (p : PaymentProcessor) :
    (ProcessPayment now evD evF p).proc.totalPayments = p.totalPayments + 1 := by
  simp only [ProcessPayment]
  split
  · split
    · rfl
    · rw [processFallback_totalPayments_eq]
  · rw [processFallback_totalPayments_eq]

theorem processPayment_one_outcome (now : Int) (evD evF : SendEvent)
    (p : PaymentProcessor) :
    ((ProcessPayment now evD evF p).proc.defaultSuccess = p.defaultSuccess + 1 ∧
     (ProcessPayment now evD evF p).proc.fallbackSuccess = p.fallbackSuccess ∧
     (ProcessPayment now evD evF p).proc.totalErrors = p.totalErrors) ∨
    ((ProcessPayment now evD evF p).proc.defaultSuccess = p.defaultSuccess ∧
     (ProcessPayment now evD evF p).proc.fallbackSuccess = p.fallbackSuccess + 1 ∧
     (ProcessPayment now evD evF p).proc.totalErrors = p.totalErrors) ∨
    ((ProcessPayment now evD evF p).proc.defaultSuccess = p.defaultSuccess ∧
     (ProcessPayment now evD evF p).proc.fallbackSuccess = p.fallbackSuccess ∧
     (ProcessPayment now evD evF p).proc.totalErrors = p.totalErrors + 1) := by
  simp only [ProcessPayment]
  split
  · split
    · exact Or.inl ⟨rfl, rfl, rfl⟩
    · rcases processFallback_counts now evF
          { p with totalPayments := p.totalPayments + 1
                   defaultStatus :=
                     (sendToProcessor now "default" evD p.defaultStatus).1 } with h | h
      · refine Or.inr (Or.inl ⟨?_, h.1, h.2⟩)
        rw [processFallback_defaultSuccess]
      · refine Or.inr (Or.inr ⟨?_, h.1, h.2⟩)
        rw [processFallback_defaultSuccess]
  · rcases processFallback_counts now evF
        { p with totalPayments := p.totalPayments + 1 } with h | h
    · refine Or.inr (Or.inl ⟨?_, h.1, h.2⟩)
      rw [processFallback_defaultSuccess]
    · refine Or.inr (Or.inr ⟨?_, h.1, h.2⟩)
      rw [processFallback_defaultSuccess]

/-- The aggregate-counter invariant of a processor record. -/
def CountersBalanced (p : PaymentProcessor) : Prop :=
  p.totalPayments = p.defaultSuccess + p.fallbackSuccess + p.totalErrors

theorem processPayment_counters_balanced (now : Int) (evD evF : SendEvent)
    (p : PaymentProcessor) (h : CountersBalanced p) :
    CountersBalanced (ProcessPayment now evD evF p).proc := by
  have h1 := processPayment_totalPayments now evD evF p
  rcases processPayment_one_outcome now evD evF p with h2 | h2 | h2 <;>
    ·  unfold CountersBalanced at h ⊢
       omega

theorem runPayments_counters_balanced (steps : List (Int × SendEvent × SendEvent))
    (p : PaymentProcessor) (h : CountersBalanced p) :
    CountersBalanced (runPayments steps p) := by
  induction steps generalizing p with
  | nil => exact h
  | cons s rest ih =>
    exact ih (ProcessPayment s.1 s.2.1 s.2.2 p).proc
      (processPayment_counters_balanced s.1 s.2.1 s.2.2 p h)

/-- C9: every `ProcessPayment` call increments `totalPayments` by exactly 1
and exactly one of `defaultSuccess`, `fallbackSuccess`, `totalErrors` by
exactly 1; hence after any sequence of completed calls starting from a
fresh processor, `GetSummary` reports counters satisfying
`TotalPayments = DefaultSuccess + FallbackSuccess + TotalErrors`. -/
theorem stats_invariant_c9 (now : Int) (evD evF : SendEvent) (p : PaymentProcessor)
    (steps : List (Int × SendEvent × SendEvent)) (d f : String) :
    ((ProcessPayment now evD evF p).proc.totalPayments = p.totalPayments + 1) ∧
    (((ProcessPayment now evD evF p).proc.defaultSuccess = p.defaultSuccess + 1 ∧
      (ProcessPayment now evD evF p).proc.fallbackSuccess = p.fallbackSuccess ∧
      (ProcessPayment now evD evF p).proc.totalErrors = p.totalErrors) ∨
     ((ProcessPayment now evD evF p).proc.defaultSuccess = p.defaultSuccess ∧
      (ProcessPayment now evD evF p).proc.fallbackSuccess = p.fallbackSuccess + 1 ∧
      (ProcessPayment now evD evF p).proc.totalErrors = p.totalErrors) ∨
     ((ProcessPayment now evD evF p).proc.defaultSuccess = p.defaultSuccess ∧
      (ProcessPayment now evD evF p).proc.fallbackSuccess = p.fallbackSuccess ∧
      (ProcessPayment now evD evF p).proc.totalErrors = p.totalErrors + 1)) ∧
    (GetSummary (runPayments steps (NewPaymentProcessor d f))).TotalPayments =
      (GetSummary (runPayments steps (NewPaymentProcessor d f))).DefaultSuccess +
      (GetSummary (runPayments steps (NewPaymentProcessor d f))).FallbackSuccess +
      (GetSummary (runPayments steps (NewPaymentProcessor d f))).TotalErrors := by
  refine ⟨processPayment_totalPayments now evD evF p,
    processPayment_one_outcome now evD evF p, ?_⟩
  have h := runPayments_counters_balanced steps (NewPaymentProcessor d f)
    (by unfold CountersBalanced NewPaymentProcessor; simp)
  exact h

/-- C10: failures that involve no network attempt and no processor response
— JSON marshalling failure and request-construction failure — make
`sendToProcessor` apply the very same `markUnhealthy` transition as a
network-level failure, incrementing the processor's `FailureCount`, so such
local errors count against the breaker exactly like processor-level
failures. -/
theorem local_errors_feed_breaker_c10 (now : Int) (pid : String)
    (st : ProcessorStatus) :
    (sendToProcessor now pid SendEvent.jsonError st).1 = markUnhealthy now st ∧
    (sendToProcessor now pid SendEvent.reqError st).1 = markUnhealthy now st ∧
    (sendToProcessor now pid SendEvent.netError st).1 = markUnhealthy now st ∧
    (markUnhealthy now st).FailureCount = st.FailureCount + 1 ∧
    (sendToProcessor now pid SendEvent.jsonError st).2.Success = false ∧
    (sendToProcessor now pid SendEvent.reqError st).2.Success = false :=
  ⟨rfl, rfl, rfl, rfl, rfl, rfl⟩

end Rinha
